import Mathlib

/-!
Verification of `lstm/datasets.py` from the covidPrediction repository.

The file embeds the two components of the repository:

* `TimeseriesDataset` — the windowed sequence adapter (`__init__`, `__len__`,
  `__getitem__`), including the Python semantics of integer indexing
  (negative indices wrap around, out-of-range indices raise `IndexError`,
  modelled as `none`) and of basic slicing (clamping, never raising).
* `PowerConsumptionDataModule` — the forecasting data module: the mutable
  cached fields set in `__init__`, the `setup(stage)` pipeline (idempotence
  guards, target derivation via `shift(-1).ffill()`, the unshuffled
  `train_test_split` cuts, the `StandardScaler` fit on train / transform on
  every split, the column-vector reshape of the targets) and the three
  `*_dataloader` methods.

Feature values are modelled as rationals; the standardized (scaled) values
live in `ℝ` because the scale is a square root of the per-column variance.
The CSV load, the sort by (Province_State, dt), the column drops and the
`dropna` are deterministic pandas operations on a fixed file path; their
result — the cleaned numeric table — is the input parameter of `setup`.
-/

namespace CovidPrediction

/-- Python integer indexing into a sequence of length `l.length`, as torch
performs it for `self.y[index]`: a nonnegative index addresses from the
front, an index in `[-length, 0)` addresses from the back, and any other
index raises `IndexError` (modelled as `none`). -/
def tensorGet {α : Type} (l : List α) (i : Int) : Option α :=
  if 0 ≤ i then l[i.toNat]?
  else if -(l.length : Int) ≤ i then l[(i + l.length).toNat]?
  else none

/-- Resolution of one endpoint of a Python basic slice `l[a:b]` on a
sequence of length `n`: a negative endpoint is shifted by `n` and clamped
below at `0`; a nonnegative endpoint is clamped above at `n`. -/
def sliceBound (n : Nat) (i : Int) : Nat :=
  if i < 0 then (max (i + n) 0).toNat else min i.toNat n

/-- Python basic slice `l[a:b]`, as torch performs it for
`self.X[index : index + self.seq_len]`: both endpoints are resolved with
`sliceBound`; the slice never raises. -/
def pySlice {α : Type} (l : List α) (a b : Int) : List α :=
  (l.take (sliceBound l.length b)).drop (sliceBound l.length a)

/-- `TimeseriesDataset.__init__(X, y, seq_len)`: stores the feature matrix,
the target sequence and the window length.  The `torch.tensor(...).float()`
conversions are modelled as the identity on the stored values. -/
structure TimeseriesDataset (α β : Type) where
  X : List α
  y : List β
  seq_len : Nat

/-- `TimeseriesDataset.__len__`: returns `len(X) - (seq_len - 1)` as an
unbounded Python integer; there is no guard of any kind. -/
def TimeseriesDataset.len {α β : Type} (d : TimeseriesDataset α β) : Int :=
  (d.X.length : Int) - ((d.seq_len : Int) - 1)

/-- `TimeseriesDataset.__getitem__(index)`: computes the slice
`X[index : index + seq_len]` (never raises) and the element
`y[index + seq_len - 1]` (raises `IndexError`, modelled as `none`, when
that position is out of range for `y`), and returns the pair. -/
def TimeseriesDataset.item {α β : Type} (d : TimeseriesDataset α β)
    (index : Int) : Option (List α × β) :=
  (tensorGet d.y (index + (d.seq_len : Int) - 1)).map
    (fun yv => (pySlice d.X index (index + (d.seq_len : Int)), yv))

/-- `Series.shift(-1)`: element `i` of the result is element `i + 1` of the
input, and the final slot becomes missing (`NaN`, modelled as `none`). -/
def shiftBack {α : Type} : List α → List (Option α)
  | [] => []
  | _ :: t => t.map some ++ [none]

/-- Recursion for `Series.ffill()`: each missing slot is replaced by the
nearest preceding non-missing value (`prev`), if any. -/
def ffillAux {α : Type} (prev : Option α) : List (Option α) → List (Option α)
  | [] => []
  | none :: t => prev :: ffillAux prev t
  | some v :: t => some v :: ffillAux (some v) t

/-- `Series.ffill()`: forward-fill missing slots; a leading run of missing
slots has no preceding value and stays missing. -/
def ffill {α : Type} (l : List (Option α)) : List (Option α) :=
  ffillAux none l

/-- `y = X['Deaths'].shift(-1).ffill()`: the Deaths column shifted back one
row, with the resulting final gap forward-filled. -/
def deriveTarget (deaths : List ℚ) : List (Option ℚ) :=
  ffill (shiftBack deaths)

/-- Number of rows `train_test_split(..., test_size=0.10)` puts in the
second part: `ceil(n * 0.10)`.  For every sample count that a double can
count exactly, `ceil` of the float product equals `ceil(n / 10)`, which is
what is used here. -/
def testCount (n : Nat) : Nat := (n + 9) / 10

/-- Number of rows `train_test_split(..., test_size=0.05)` puts in the
second part: `ceil(n * 0.05) = ceil(n / 20)`. -/
def valCount (n : Nat) : Nat := (n + 19) / 20

/-- `train_test_split(l, ..., shuffle=False)` keeping `nTail` elements for
the second part: the first `length - nTail` elements, then the final
`nTail`, with no reordering. -/
def splitTail {α : Type} (l : List α) (nTail : Nat) : List α × List α :=
  (l.take (l.length - nTail), l.drop (l.length - nTail))

/-- The three parts produced by the two chained `train_test_split` calls. -/
structure SplitData (α : Type) where
  train : List α
  val : List α
  test : List α

/-- The chronological split of `setup`: first carve off the final
`testCount` rows as test (`test_size=0.10, shuffle=False`), then carve off
the final `valCount` rows of the remainder as validation
(`test_size=0.05, shuffle=False`); the rest is train.  `X` and `y` are cut
at the same positions because they have the same length. -/
def chronoSplit {α : Type} (l : List α) : SplitData α :=
  let cv := (splitTail l (testCount l.length)).1
  { train := (splitTail cv (valCount cv.length)).1
    val := (splitTail cv (valCount cv.length)).2
    test := (splitTail l (testCount l.length)).2 }

/-- Mean of a column, as `StandardScaler` computes it. -/
def meanQ (l : List ℚ) : ℚ := l.sum / l.length

/-- Population variance of a column, as `StandardScaler` computes it. -/
def varQ (l : List ℚ) : ℚ := (l.map (fun x => (x - meanQ l) ^ 2)).sum / l.length

/-- `StandardScaler().fit(M)`: the per-column means and per-column
variances of the matrix it is fitted on (columns via `transpose`). -/
def fitScaler (M : List (List ℚ)) : List ℚ × List ℚ :=
  (M.transpose.map meanQ, M.transpose.map varQ)

/-- The divisor `scaler.transform` uses for one column: the square root of
the fitted variance, with zero variance replaced by `1`. -/
noncomputable def scaleOfVar (v : ℚ) : ℝ :=
  if v = 0 then 1 else Real.sqrt (v : ℝ)

/-- `scaler.transform(M)`: subtract the fitted per-column mean from every
entry and divide by the fitted per-column scale. -/
noncomputable def applyScaler (p : List ℚ × List ℚ) (M : List (List ℚ)) :
    List (List ℝ) :=
  M.map (fun row =>
    (row.zip (p.1.zip p.2)).map
      (fun e => ((e.1 : ℝ) - (e.2.1 : ℝ)) / scaleOfVar e.2.2))

/-- The `stage` argument of `setup`: the string `'fit'` or `'test'`
(`stage=None` is modelled by `Option Stage`). -/
inductive Stage
  | fit
  | test
deriving DecidableEq

/-- The mutable state of a `PowerConsumptionDataModule`.  For the fields
`X_train`, `y_train`, `X_val`, `y_val`, `X_test`, `columns` and
`preprocessing`, `none` models the Python value `None`.  The constructor
assigns `self.X_test = None` twice and never assigns `self.y_test`, so for
`y_test` alone `none` models the absence of the attribute: reading it
raises `AttributeError` instead of producing `None`.  Target arrays are
column vectors of optional rationals because the derived target can carry
a `NaN`; scaled feature arrays are real matrices. -/
structure DM where
  seq_len : Nat
  batch_size : Nat
  num_workers : Nat
  X_train : Option (List (List ℝ))
  y_train : Option (List (List (Option ℚ)))
  X_val : Option (List (List ℝ))
  y_val : Option (List (List (Option ℚ)))
  X_test : Option (List (List ℝ))
  y_test : Option (List (List (Option ℚ)))
  columns : Option Unit
  preprocessing : Option Unit

/-- `PowerConsumptionDataModule.__init__(seq_len, batch_size, num_workers)`:
every cached field starts as `None`; the `y_test` attribute is never
created (the constructor assigns `X_test` twice in its place). -/
def DM.init (sl bs nw : Nat) : DM :=
  { seq_len := sl, batch_size := bs, num_workers := nw,
    X_train := none, y_train := none, X_val := none, y_val := none,
    X_test := none, y_test := none, columns := none, preprocessing := none }

/-- `PowerConsumptionDataModule.setup(stage)`.  The idempotence guards come
first: `stage == 'fit'` with `X_train` present, `stage == 'test'` with
`X_test` present, or `stage is None` with both present, return immediately.
Otherwise the cleaned table `X` (the deterministic result of reading the
fixed CSV, sorting by (Province_State, dt), dropping the fixed column set
and `dropna`; `dIdx` is the position of its Deaths column) is processed:
derive the target, record the columns, cut test then validation off the
tail without shuffling, fit the scaler on the train part only, and store
the transformed feature matrices and reshaped target column vectors for
the stages the call covers. -/
noncomputable def DM.setup (X : List (List ℚ)) (dIdx : Nat)
    (stage : Option Stage) (s : DM) : DM :=
  if stage = some Stage.fit ∧ s.X_train.isSome then s
  else if stage = some Stage.test ∧ s.X_test.isSome then s
  else if stage = none ∧ s.X_train.isSome ∧ s.X_test.isSome then s
  else
    let y := deriveTarget (X.map (fun r => r.getD dIdx 0))
    let Xsp := chronoSplit X
    let ysp := chronoSplit y
    let p := fitScaler Xsp.train
    let s1 := { s with columns := some () }
    let s2 :=
      if stage = some Stage.fit ∨ stage = none then
        { s1 with
          X_train := some (applyScaler p Xsp.train)
          y_train := some (ysp.train.map (fun v => [v]))
          X_val := some (applyScaler p Xsp.val)
          y_val := some (ysp.val.map (fun v => [v])) }
      else s1
    if stage = some Stage.test ∨ stage = none then
      { s2 with
        X_test := some (applyScaler p Xsp.test)
        y_test := some (ysp.test.map (fun v => [v])) }
    else s2

/-- A constructed `DataLoader(dataset, batch_size, shuffle, num_workers)`. -/
structure Loader (α β : Type) where
  dataset : TimeseriesDataset α β
  batch_size : Nat
  shuffle : Bool
  num_workers : Nat

/-- Construction of `TimeseriesDataset(X, y, seq_len)` from cached module
fields.  If either argument is Python `None` (`torch.tensor(None)` raises)
or a missing attribute (reading `self.y_test` raises `AttributeError`
before the constructor is even entered), the construction fails, modelled
as `none`. -/
def mkDataset {α β : Type} (X : Option (List α)) (y : Option (List β))
    (sl : Nat) : Option (TimeseriesDataset α β) :=
  match X, y with
  | some X, some y => some ⟨X, y, sl⟩
  | _, _ => none

/-- `train_dataloader`: wraps `TimeseriesDataset(X_train, y_train, seq_len)`
in a `DataLoader` with the configured batch size, `shuffle=False` and the
configured worker count.  It never invokes `setup`. -/
def DM.train_dataloader (s : DM) :
    Option (Loader (List ℝ) (List (Option ℚ))) :=
  (mkDataset s.X_train s.y_train s.seq_len).map
    (fun d => ⟨d, s.batch_size, false, s.num_workers⟩)

/-- `val_dataloader`: same as `train_dataloader` over `X_val`, `y_val`. -/
def DM.val_dataloader (s : DM) :
    Option (Loader (List ℝ) (List (Option ℚ))) :=
  (mkDataset s.X_val s.y_val s.seq_len).map
    (fun d => ⟨d, s.batch_size, false, s.num_workers⟩)

/-- `test_dataloader`: same as `train_dataloader` over `X_test`, `y_test`;
evaluating `self.y_test` on a module whose test stage never ran raises
`AttributeError`. -/
def DM.test_dataloader (s : DM) :
    Option (Loader (List ℝ) (List (Option ℚ))) :=
  (mkDataset s.X_test s.y_test s.seq_len).map
    (fun d => ⟨d, s.batch_size, false, s.num_workers⟩)

/-- A data module whose train and test caches are already populated, used
to exercise the idempotence guards at a concrete state. -/
def sampleReadyDM : DM :=
  { DM.init 1 128 0 with X_train := some [], X_test := some [] }

/-! ## Helper lemmas -/

/-- On a nonnegative index, `tensorGet` is plain front indexing. -/
theorem tensorGet_of_nonneg {α : Type} (l : List α) (i : Int) (h : 0 ≤ i) :
    tensorGet l i = l[i.toNat]? := by
  simp [tensorGet, h]

/-- Unfolding `ffillAux` over a present value. -/
theorem ffillAux_cons_some {α : Type} (prev : Option α) (v : α)
    (t : List (Option α)) :
    ffillAux prev (some v :: t) = some v :: ffillAux (some v) t := rfl

/-- Inside a window, `__getitem__` returns the `seq_len` rows starting at
the index together with the target at the last row of the window. -/
theorem item_spec_of_lt {α β : Type} (d : TimeseriesDataset α β) (i : Nat)
    (hy : d.y.length = d.X.length) (hs : 1 ≤ d.seq_len)
    (hi : (i : Int) < d.len) :
    ∃ t, d.y[i + d.seq_len - 1]? = some t ∧
      d.item i = some ((d.X.drop i).take d.seq_len, t) := by
  obtain ⟨X, y, s⟩ := d
  simp only [TimeseriesDataset.len] at hi
  simp only at hy hs ⊢
  have hidx : i + s - 1 < y.length := by omega
  refine ⟨y.get ⟨i + s - 1, hidx⟩, ?_, ?_⟩
  · simp [List.getElem?_eq_getElem hidx]
  · have h0 : (0 : ℤ) ≤ (i : ℤ) + (s : ℤ) - 1 := by omega
    have ht : ((i : ℤ) + (s : ℤ) - 1).toNat = i + s - 1 := by omega
    have hb1 : sliceBound X.length (i : ℤ) = i := by
      rw [sliceBound, if_neg (by omega)]
      omega
    have hb2 : sliceBound X.length ((i : ℤ) + (s : ℤ)) = i + s := by
      rw [sliceBound, if_neg (by omega)]
      omega
    simp only [TimeseriesDataset.item]
    rw [tensorGet_of_nonneg _ _ h0, ht, List.getElem?_eq_getElem hidx]
    simp only [Option.map_some, pySlice, hb1, hb2]
    rw [← List.take_drop]
    simp

/-- Past the last window start, `__getitem__` raises `IndexError`: the
target position `index + seq_len - 1` falls outside `y`. -/
theorem item_none_of_ge {α β : Type} (d : TimeseriesDataset α β) (i : Int)
    (hy : d.y.length = d.X.length) (hi : d.len ≤ i) :
    d.item i = none := by
  obtain ⟨X, y, s⟩ := d
  simp only [TimeseriesDataset.len] at hi
  simp only at hy
  simp only [TimeseriesDataset.item]
  have h0 : (0 : ℤ) ≤ i + (s : ℤ) - 1 := by omega
  rw [tensorGet_of_nonneg _ _ h0]
  have hlen : y.length ≤ (i + (s : ℤ) - 1).toNat := by omega
  rw [List.getElem?_eq_none hlen]
  rfl

/-- Forward-filling a shifted all-present column: every slot keeps its
value and the final missing slot receives the last present value. -/
theorem ffillAux_shifted {α : Type} (prev : Option α) (b : α) (t : List α) :
    ffillAux prev ((b :: t).map some ++ [none]) =
      (b :: t).map some ++ [(b :: t).getLast?] := by
  induction t generalizing prev b with
  | nil => simp [ffillAux]
  | cons c t2 ih =>
    have h1 : (b :: c :: t2).map some ++ [none] =
        some b :: ((c :: t2).map some ++ [none]) := by simp
    rw [h1, ffillAux_cons_some, ih]
    simp [List.getLast?_cons_cons]

/-- The derived target of a column with at least two rows: the column
shifted back one row, with the final slot carrying the last value forward. -/
theorem deriveTarget_eq_of_two_le (l : List ℚ) (h : 2 ≤ l.length) :
    deriveTarget l = (l.drop 1).map some ++ [l.getLast?] := by
  cases l with
  | nil => norm_num at h
  | cons a l1 =>
    cases l1 with
    | nil => norm_num at h
    | cons b t =>
      show ffill (shiftBack (a :: b :: t)) = _
      simp only [shiftBack, ffill]
      rw [ffillAux_shifted]
      simp [List.getLast?_cons_cons]

/-- Ceil of a tenth never exceeds the whole. -/
theorem testCount_le (n : Nat) : testCount n ≤ n := by
  unfold testCount; omega

/-- Ceil of a twentieth never exceeds the whole. -/
theorem valCount_le (n : Nat) : valCount n ≤ n := by
  unfold valCount; omega

/-- The fit-stage idempotence guard: with train data present,
`setup('fit')` returns immediately. -/
theorem setup_fit_noop (X : List (List ℚ)) (dIdx : Nat) (s : DM)
    (h : s.X_train.isSome) : DM.setup X dIdx (some Stage.fit) s = s := by
  rw [DM.setup, if_pos ⟨rfl, h⟩]

/-- The test-stage idempotence guard: with test data present,
`setup('test')` returns immediately. -/
theorem setup_test_noop (X : List (List ℚ)) (dIdx : Nat) (s : DM)
    (h : s.X_test.isSome) : DM.setup X dIdx (some Stage.test) s = s := by
  rw [DM.setup, if_neg (by simp), if_pos ⟨rfl, h⟩]

/-- The full-run idempotence guard: with both train and test data present,
`setup(None)` returns immediately. -/
theorem setup_none_noop (X : List (List ℚ)) (dIdx : Nat) (s : DM)
    (h1 : s.X_train.isSome) (h2 : s.X_test.isSome) :
    DM.setup X dIdx none s = s := by
  rw [DM.setup, if_neg (by simp), if_neg (by simp), if_pos ⟨rfl, h1, h2⟩]

/-- After `setup(None)`, both the train and the test caches are populated
(whether the call recomputed them or the guard found them present). -/
theorem setup_none_fills (X : List (List ℚ)) (dIdx : Nat) (s : DM) :
    (DM.setup X dIdx none s).X_train.isSome ∧
    (DM.setup X dIdx none s).X_test.isSome := by
  by_cases h : s.X_train.isSome ∧ s.X_test.isSome
  · rw [setup_none_noop X dIdx s h.1 h.2]; exact h
  · rw [DM.setup, if_neg (by simp), if_neg (by simp), if_neg (by simpa using h)]
    simp

/-! ## Claim theorems -/

/-- C1: for every feature matrix `X` and target vector `y` of equal row
count, every positive `seq_len`, and every index `i` with
`0 ≤ i < length()`, `item(i)` returns the pair (rows `[i, i+seq_len)` of
`X`, the target-vector value at row `i+seq_len-1`). -/
theorem C1_item_in_range {α β : Type} (d : TimeseriesDataset α β) (i : Nat)
    (hy : d.y.length = d.X.length) (hs : 1 ≤ d.seq_len)
    (hi : (i : Int) < d.len) :
    ∃ t, d.y[i + d.seq_len - 1]? = some t ∧
      d.item i = some ((d.X.drop i).take d.seq_len, t) :=
  item_spec_of_lt d i hy hs hi

/-- Witness for C1 at a concrete four-row dataset with `seq_len = 2` and
index `1`: the window is rows 1 and 2, the target is the value at row 2. -/
theorem C1_item_in_range_witness :
    (⟨[10, 20, 30, 40], [1, 2, 3, 4], 2⟩ :
        TimeseriesDataset ℚ ℚ).item 1 = some ([20, 30], (3 : ℚ)) := by
  obtain ⟨t, ht, hitem⟩ :=
    C1_item_in_range
      (⟨[10, 20, 30, 40], [1, 2, 3, 4], 2⟩ : TimeseriesDataset ℚ ℚ) 1
      (by decide) (by decide) (by decide)
  have ht2 : ([1, 2, 3, 4] : List ℚ)[1 + 2 - 1]? = some (3 : ℚ) := by decide
  have ht3 : t = 3 := by simpa using ht.symm.trans ht2
  rw [ht3] at hitem
  simpa using hitem

/-- C2: for a feature matrix with `L` rows and `seq_len = s ≤ L`,
`__len__` returns `L - s + 1`. -/
theorem C2_adapter_length {α β : Type} (d : TimeseriesDataset α β)
    (_h : d.seq_len ≤ d.X.length) :
    d.len = (d.X.length : Int) - d.seq_len + 1 := by
  simp only [TimeseriesDataset.len]
  omega

/-- Witness for C2 at a three-row dataset with `seq_len = 2`:
the adapter length is `3 - 2 + 1 = 2`. -/
theorem C2_adapter_length_witness :
    (⟨[10, 20, 30], [1, 2, 3], 2⟩ : TimeseriesDataset ℚ ℚ).len = 2 := by
  rw [C2_adapter_length
    (⟨[10, 20, 30], [1, 2, 3], 2⟩ : TimeseriesDataset ℚ ℚ) (by decide)]
  norm_num

/-- C3: the chronological split is order-preserving, disjoint and
unshuffled: train ++ validation ++ test is exactly the cleaned row order;
test is the final `ceil(10%)` block of rows, validation the final
`ceil(5%)` block of the remaining rows, train the rest. -/
theorem C3_chronological_split {α : Type} (l : List α) :
    (chronoSplit l).train ++ (chronoSplit l).val ++ (chronoSplit l).test
        = l ∧
    (chronoSplit l).test.length = testCount l.length ∧
    (chronoSplit l).test = l.drop (l.length - testCount l.length) ∧
    (chronoSplit l).val.length =
      valCount (l.length - testCount l.length) ∧
    (chronoSplit l).train ++ (chronoSplit l).val
        = l.take (l.length - testCount l.length) := by
  have htc := testCount_le l.length
  have hcv : (l.take (l.length - testCount l.length)).length
      = l.length - testCount l.length := by
    simp
  have hvc := valCount_le (l.length - testCount l.length)
  refine ⟨?_, ?_, rfl, ?_, ?_⟩
  · simp only [chronoSplit, splitTail]
    rw [List.take_append_drop, List.take_append_drop]
  · simp only [chronoSplit, splitTail]
    simp only [List.length_drop]
    omega
  · simp only [chronoSplit, splitTail]
    simp only [List.length_drop, hcv]
    omega
  · simp only [chronoSplit, splitTail]
    rw [List.take_append_drop]

/-- C4: the scaler is fitted exclusively on the train feature matrix (two
cleaned tables with the same train part yield the same fitted parameters),
the same fitted transform is applied to the train, validation and test
feature matrices, and the target vectors are reshaped to column vectors
with their values unscaled. -/
theorem C4_scaler_fit_on_train_only (X : List (List ℚ))
    (dIdx sl bs nw : Nat) :
    (DM.setup X dIdx none (DM.init sl bs nw)).X_train =
      some (applyScaler (fitScaler (chronoSplit X).train)
        (chronoSplit X).train) ∧
    (DM.setup X dIdx none (DM.init sl bs nw)).X_val =
      some (applyScaler (fitScaler (chronoSplit X).train)
        (chronoSplit X).val) ∧
    (DM.setup X dIdx none (DM.init sl bs nw)).X_test =
      some (applyScaler (fitScaler (chronoSplit X).train)
        (chronoSplit X).test) ∧
    (DM.setup X dIdx none (DM.init sl bs nw)).y_train =
      some ((chronoSplit (deriveTarget
        (X.map (fun r => r.getD dIdx 0)))).train.map (fun v => [v])) ∧
    (DM.setup X dIdx none (DM.init sl bs nw)).y_val =
      some ((chronoSplit (deriveTarget
        (X.map (fun r => r.getD dIdx 0)))).val.map (fun v => [v])) ∧
    (DM.setup X dIdx none (DM.init sl bs nw)).y_test =
      some ((chronoSplit (deriveTarget
        (X.map (fun r => r.getD dIdx 0)))).test.map (fun v => [v])) ∧
    (∀ X2 : List (List ℚ),
      (chronoSplit X2).train = (chronoSplit X).train →
      fitScaler (chronoSplit X2).train
        = fitScaler (chronoSplit X).train) := by
  refine ⟨?_, ?_, ?_, ?_, ?_, ?_, fun X2 h => by rw [h]⟩ <;>
    simp [DM.setup, DM.init]

/-- Witness for C4: two concrete three-row tables that differ only in the
test row have equal train parts, hence equal fitted parameters; the target
column vector is the unscaled split of the derived target. -/
theorem C4_scaler_fit_on_train_only_witness :
    (chronoSplit [[(2 : ℚ)], [3], [9]]).train
        = (chronoSplit [[(2 : ℚ)], [3], [7]]).train ∧
    fitScaler (chronoSplit [[(2 : ℚ)], [3], [9]]).train
        = fitScaler (chronoSplit [[(2 : ℚ)], [3], [7]]).train ∧
    (DM.setup [[(2 : ℚ)], [3], [7]] 0 none (DM.init 1 128 0)).y_train =
      some ((chronoSplit (deriveTarget
        ([[(2 : ℚ)], [3], [7]].map (fun r => r.getD 0 0)))).train.map
          (fun v => [v])) := by
  have h := C4_scaler_fit_on_train_only [[(2 : ℚ)], [3], [7]] 0 1 128 0
  exact ⟨by decide, h.2.2.2.2.2.2 [[(2 : ℚ)], [3], [9]] (by decide),
    h.2.2.2.1⟩

/-- C5: the target vector is the Deaths column shifted back one row
(every slot but the last holds the deaths value of the next row) with the
final gap forward-filled by the last deaths value. -/
theorem C5_target_derivation (l : List ℚ) (h : 2 ≤ l.length) :
    deriveTarget l = (l.drop 1).map some ++ [l.getLast?] :=
  deriveTarget_eq_of_two_le l h

/-- Witness for C5 at the Deaths sequence `[10, 12, 15, 15]` of the spec:
the derived target vector is `[12, 15, 15, 15]`. -/
theorem C5_target_derivation_witness :
    deriveTarget [10, 12, 15, 15]
      = [some 12, some 15, some 15, some 15] := by
  rw [C5_target_derivation [10, 12, 15, 15] (by decide)]
  decide

/-- C6: setup is idempotent per stage — `setup('fit')` with train data
present, `setup('test')` with test data present and `setup(None)` with
both present are no-ops, and running the full pipeline twice with
`stage=None` produces identical arrays both times. -/
theorem C6_setup_idempotent (X : List (List ℚ)) (dIdx sl bs nw : Nat)
    (s : DM) :
    (s.X_train ≠ none → DM.setup X dIdx (some Stage.fit) s = s) ∧
    (s.X_test ≠ none → DM.setup X dIdx (some Stage.test) s = s) ∧
    (s.X_train ≠ none → s.X_test ≠ none → DM.setup X dIdx none s = s) ∧
    DM.setup X dIdx none (DM.setup X dIdx none (DM.init sl bs nw)) =
      DM.setup X dIdx none (DM.init sl bs nw) :=
  ⟨fun h => setup_fit_noop X dIdx s (Option.isSome_iff_ne_none.mpr h),
   fun h => setup_test_noop X dIdx s (Option.isSome_iff_ne_none.mpr h),
   fun h1 h2 => setup_none_noop X dIdx s
     (Option.isSome_iff_ne_none.mpr h1) (Option.isSome_iff_ne_none.mpr h2),
   setup_none_noop X dIdx _
     (setup_none_fills X dIdx _).1 (setup_none_fills X dIdx _).2⟩

/-- Witness for C6 at a concrete module state whose train and test caches
are populated: every setup variant is a no-op on it. -/
theorem C6_setup_idempotent_witness :
    sampleReadyDM.X_train ≠ none ∧ sampleReadyDM.X_test ≠ none ∧
    DM.setup [[1], [2]] 0 (some Stage.fit) sampleReadyDM = sampleReadyDM ∧
    DM.setup [[1], [2]] 0 (some Stage.test) sampleReadyDM = sampleReadyDM ∧
    DM.setup [[1], [2]] 0 none sampleReadyDM = sampleReadyDM := by
  have h := C6_setup_idempotent [[1], [2]] 0 1 128 0 sampleReadyDM
  have h1 : sampleReadyDM.X_train ≠ none := by simp [sampleReadyDM, DM.init]
  have h2 : sampleReadyDM.X_test ≠ none := by simp [sampleReadyDM, DM.init]
  exact ⟨h1, h2, h.1 h1, h.2.1 h2, h.2.2.1 h1 h2⟩

/-- C7 counterexample: with 2 rows and `seq_len = 3 > 2`, `__len__`
returns the value `0` — a zero length is yielded and nothing fails, so no
`InvalidConfiguration` error exists. -/
theorem C7_counterexample :
    (⟨[[1], [2]], [1, 2], 3⟩ : TimeseriesDataset (List ℚ) ℚ).len = 0 := by
  decide

/-- C7 amended: when `seq_len > L`, `__len__` is unguarded and returns
`L - seq_len + 1 ≤ 0` (zero for `seq_len = L + 1`, negative beyond). -/
theorem C7_amended_unguarded_length {α β : Type} (d : TimeseriesDataset α β)
    (h : d.X.length < d.seq_len) :
    d.len ≤ 0 ∧ d.len = (d.X.length : Int) - d.seq_len + 1 := by
  simp only [TimeseriesDataset.len]
  omega

/-- Witness for the amended C7 at 2 rows and `seq_len = 4`: the returned
length is `-1`. -/
theorem C7_amended_unguarded_length_witness :
    (⟨[[1], [2]], [1, 2], 4⟩ : TimeseriesDataset (List ℚ) ℚ).len ≤ 0 ∧
    (⟨[[1], [2]], [1, 2], 4⟩ : TimeseriesDataset (List ℚ) ℚ).len = -1 := by
  have h := C7_amended_unguarded_length
    (⟨[[1], [2]], [1, 2], 4⟩ : TimeseriesDataset (List ℚ) ℚ) (by decide)
  exact ⟨h.1, by rw [h.2]; decide⟩

/-- C8 counterexample: the index `-1` lies outside `[0, length())`, yet
`item(-1)` does not fail — Python wrap-around indexing makes it return an
(empty-window) pair. -/
theorem C8_counterexample :
    (-1 : Int) < 0 ∧
    (⟨[10, 20, 30, 40], [1, 2, 3, 4], 2⟩ :
        TimeseriesDataset ℚ ℚ).item (-1) = some ([], (1 : ℚ)) := by
  exact ⟨by decide, by decide⟩

/-- C8 amended: every index `i ≥ length()` makes `item(i)` fail with
`IndexOutOfRange`; `item(L-s)` is the last valid index and `item(L-s+1)`
raises. (Negative indices follow Python wrap-around semantics and need
not fail.) -/
theorem C8_amended_item_out_of_range {α β : Type}
    (d : TimeseriesDataset α β)
    (hy : d.y.length = d.X.length) (hs : 1 ≤ d.seq_len)
    (hsL : d.seq_len ≤ d.X.length) :
    (∀ i : Int, d.len ≤ i → d.item i = none) ∧
    d.item ((d.X.length : Int) - d.seq_len) ≠ none ∧
    d.item ((d.X.length : Int) - d.seq_len + 1) = none := by
  refine ⟨fun i hi => item_none_of_ge d i hy hi, ?_, ?_⟩
  · have hcast : ((d.X.length - d.seq_len : Nat) : Int)
        = (d.X.length : Int) - d.seq_len := by omega
    obtain ⟨t, ht, hitem⟩ := item_spec_of_lt d (d.X.length - d.seq_len)
      hy hs (by simp only [TimeseriesDataset.len]; omega)
    rw [← hcast, hitem]
    simp
  · refine item_none_of_ge d _ hy ?_
    simp only [TimeseriesDataset.len]
    omega

/-- Witness for the amended C8 at a four-row dataset with `seq_len = 2`
(`length() = 3`): `item 5` and `item 3` fail, `item 2` succeeds. -/
theorem C8_amended_item_out_of_range_witness :
    (⟨[10, 20, 30, 40], [1, 2, 3, 4], 2⟩ :
        TimeseriesDataset ℚ ℚ).item 5 = none ∧
    (⟨[10, 20, 30, 40], [1, 2, 3, 4], 2⟩ :
        TimeseriesDataset ℚ ℚ).item 2 ≠ none ∧
    (⟨[10, 20, 30, 40], [1, 2, 3, 4], 2⟩ :
        TimeseriesDataset ℚ ℚ).item 3 = none := by
  have h := C8_amended_item_out_of_range
    (⟨[10, 20, 30, 40], [1, 2, 3, 4], 2⟩ : TimeseriesDataset ℚ ℚ)
    (by decide) (by decide) (by decide)
  refine ⟨h.1 5 (by decide), ?_, ?_⟩
  · have h2 := h.2.1
    simpa using h2
  · have h3 := h.2.2
    simpa using h3

/-- C9: requesting any dataloader before setup has run for its stage
fails (`torch.tensor(None)` or the missing `y_test` attribute raise,
modelled as `none`), and the dataloader methods never auto-run setup —
running only the other stage leaves the request failing. -/
theorem C9_dataloader_before_setup (X : List (List ℚ))
    (dIdx sl bs nw : Nat) :
    (DM.init sl bs nw).train_dataloader = none ∧
    (DM.init sl bs nw).val_dataloader = none ∧
    (DM.init sl bs nw).test_dataloader = none ∧
    (DM.setup X dIdx (some Stage.test)
      (DM.init sl bs nw)).train_dataloader = none ∧
    (DM.setup X dIdx (some Stage.test)
      (DM.init sl bs nw)).val_dataloader = none ∧
    (DM.setup X dIdx (some Stage.fit)
      (DM.init sl bs nw)).test_dataloader = none := by
  refine ⟨rfl, rfl, rfl, ?_, ?_, ?_⟩ <;>
    simp [DM.setup, DM.init, DM.train_dataloader, DM.val_dataloader,
      DM.test_dataloader, mkDataset]

/-- C10: after construction and before any setup, the cached fields
`X_train`, `y_train`, `X_val`, `y_val`, `X_test` are all `None`, while the
`y_test` attribute was never created (the constructor assigns `X_test`
twice in its place): it stays absent even after `setup('fit')` and only a
setup covering the test stage creates it, so reading it earlier is an
attribute-lookup failure rather than a `None` value. -/
theorem C10_y_test_never_initialized (X : List (List ℚ))
    (dIdx sl bs nw : Nat) :
    (DM.init sl bs nw).X_train = none ∧
    (DM.init sl bs nw).y_train = none ∧
    (DM.init sl bs nw).X_val = none ∧
    (DM.init sl bs nw).y_val = none ∧
    (DM.init sl bs nw).X_test = none ∧
    (DM.init sl bs nw).y_test = none ∧
    (DM.setup X dIdx (some Stage.fit) (DM.init sl bs nw)).y_test = none ∧
    (DM.setup X dIdx (some Stage.test) (DM.init sl bs nw)).y_test ≠ none ∧
    (DM.setup X dIdx none (DM.init sl bs nw)).y_test ≠ none ∧
    (DM.init sl bs nw).test_dataloader = none := by
  refine ⟨rfl, rfl, rfl, rfl, rfl, rfl, ?_, ?_, ?_, rfl⟩ <;>
    simp [DM.setup, DM.init]

end CovidPrediction
